import Mathlib

/-!
Shallow embedding of the reduction layers of `src/python/statistics.py`
(petaio_caffe custom Python layers: Mean, Prod, Sum, Min, Max).

Tensors are modelled as a shape (list of dimension sizes) together with the
flat row-major list of rational values.  The numpy reductions invoked by the
layers (`np.mean`, `np.prod`, `np.sum`, `np.min`, `np.max` with `axis` and
`keepdims`) are embedded as `npReduce` below: the output element at each kept
multi-index is the fold of the input elements that agree with it on every
non-reduced coordinate, which is the conventional reduction numpy computes.
The numpy broadcast assignment used by `backward`
(`bottom[i].diff[...] = top[i].diff[:]`) is embedded by `broadcastTo` with
numpy's right-aligned broadcasting rule.
-/

/-- A tensor shape: the ordered list of dimension sizes. -/
abbrev Shape := List Nat

/-- Number of elements of a tensor of this shape (`blob.count` in caffe). -/
def Shape.count (s : Shape) : Nat := s.foldr (· * ·) 1

/-- A dense tensor: shape plus flat row-major data. -/
structure Tensor where
  shape : Shape
  data : List ℚ
deriving DecidableEq

/-- `bottom[0].count` of the caffe blob: the number of elements. -/
def Tensor.count (t : Tensor) : Nat := Shape.count t.shape

/-- The `axis` parameter: a Python `int`, or a collection of indices
(the code distinguishes them by `type(self.axis) == int`). -/
inductive AxisSpec where
  | int (k : Nat)
  | multi (ks : List Nat)
deriving DecidableEq

/-- The errors the layers can raise (`raise Exception(...)` in the source,
plus the numpy broadcast failure that the backward assignment can hit). -/
inductive LayerError where
  | configuration
  | emptyInput
  | broadcast
deriving DecidableEq

/-- The parameters stored by `setup`: `self.axis` and `self.keepdims`. -/
structure LayerConfig where
  axis : AxisSpec
  keepdims : Bool
deriving DecidableEq

/-- `setup(self, bottom, top)` shared by all five layers: raises unless there
is exactly one bottom and one top blob, then stores the parameters. -/
def layerSetup (nBottom nTop : Nat) (params : LayerConfig) :
    Except LayerError LayerConfig :=
  if nBottom ≠ 1 then .error .configuration
  else if nTop ≠ 1 then .error .configuration
  else .ok params

/-- Python insertion into an ascending-sorted list (helper for `sortAsc`). -/
def insertAsc (x : Nat) : List Nat → List Nat
  | [] => [x]
  | y :: ys => if x ≤ y then x :: y :: ys else y :: insertAsc x ys

/-- Ascending sort, modelling Python `sorted(self.axis)`. -/
def sortAsc : List Nat → List Nat
  | [] => []
  | x :: xs => insertAsc x (sortAsc xs)

/-- `reversed(sorted(self.axis))`: the descending iteration order used by the
multi-axis branch of `reshape`. -/
def sortedDesc (l : List Nat) : List Nat := (sortAsc l).reverse

/-- One step of the shape computation in `reshape`: `shape[i] = 1` when
keep-dims, `del shape[i]` otherwise. -/
def reduceShapeStep (keepdims : Bool) (s : Shape) (i : Nat) : Shape :=
  if keepdims then s.set i 1 else s.eraseIdx i

/-- The output shape computed by `reshape`: single-axis branch for an `int`
axis, otherwise the descending-ordered loop over the sorted axes. -/
def reshapeShape (axis : AxisSpec) (keepdims : Bool) (shape : Shape) : Shape :=
  match axis with
  | .int k => reduceShapeStep keepdims shape k
  | .multi ks => (sortedDesc ks).foldl (reduceShapeStep keepdims) shape

/-- `reshape(self, bottom, top)` shared by all five layers: raises the
empty-input error when `bottom[0].count == 0`, before any output resize;
otherwise returns the shape to which `top[0]` is resized. -/
def reshapeRun (axis : AxisSpec) (keepdims : Bool) (bottom : Tensor) :
    Except LayerError Shape :=
  if bottom.count = 0 then .error .emptyInput
  else .ok (reshapeShape axis keepdims bottom.shape)

/-- All multi-indices of a shape, in row-major (lexicographic) order. -/
def indices : Shape → List (List Nat)
  | [] => [[]]
  | d :: ds => (List.range d).flatMap (fun i => (indices ds).map (i :: ·))

/-- Row-major flat position of a multi-index in a shape. -/
def flatIndex : Shape → List Nat → Nat
  | _, [] => 0
  | [], _ => 0
  | _ :: ds, i :: is => i * Shape.count ds + flatIndex ds is

/-- Element of a tensor at a multi-index (0 outside the data). -/
def Tensor.get (t : Tensor) (j : List Nat) : ℚ :=
  t.data.getD (flatIndex t.shape j) 0

/-- The reduced axes named by the axis parameter. -/
def axesOf : AxisSpec → List Nat
  | .int k => [k]
  | .multi ks => ks

/-- The keep-dims output shape from dimension number `i` on: every reduced
dimension becomes 1. -/
def keepShapeFrom (axes : List Nat) (i : Nat) : Shape → Shape
  | [] => []
  | d :: ds => (if axes.contains i then 1 else d) :: keepShapeFrom axes (i + 1) ds

/-- The keep-dims output shape: every reduced dimension becomes 1. -/
def keepShape (axes : List Nat) (s : Shape) : Shape := keepShapeFrom axes 0 s

/-- The collapsed output shape from dimension number `i` on: every reduced
dimension is removed. -/
def dropShapeFrom (axes : List Nat) (i : Nat) : Shape → Shape
  | [] => []
  | d :: ds =>
    if axes.contains i then dropShapeFrom axes (i + 1) ds
    else d :: dropShapeFrom axes (i + 1) ds

/-- The collapsed output shape: every reduced dimension is removed. -/
def dropShape (axes : List Nat) (s : Shape) : Shape := dropShapeFrom axes 0 s

/-- Agreement of an input multi-index with a kept multi-index on every
coordinate from number `i` on that is not a reduced axis. -/
def agreesFrom (axes : List Nat) (i : Nat) : List Nat → List Nat → Bool
  | [], _ => true
  | _, [] => true
  | j :: js, o :: os => (axes.contains i || j == o) && agreesFrom axes (i + 1) js os

/-- Does multi-index `j` of the input agree with kept multi-index `o` on
every coordinate that is not reduced? -/
def agreesOutside (axes : List Nat) (j o : List Nat) : Bool :=
  agreesFrom axes 0 j o

/-- The input elements reduced into the output element at kept index `o`. -/
def fiber (t : Tensor) (axes : List Nat) (o : List Nat) : List ℚ :=
  ((indices t.shape).filter (fun j => agreesOutside axes j o)).map t.get

/-- The numpy reduction `np.f(data, axis, keepdims)`: one fold of `f` per
kept multi-index, flat data in row-major order. -/
def npReduce (f : List ℚ → ℚ) (t : Tensor) (axes : List Nat)
    (keepdims : Bool) : Tensor :=
  { shape := if keepdims then keepShape axes t.shape else dropShape axes t.shape
    data := (indices (keepShape axes t.shape)).map (fun o => f (fiber t axes o)) }

/-- Additive fold (`np.sum`). -/
def sumList (l : List ℚ) : ℚ := l.foldr (· + ·) 0

/-- Multiplicative fold (`np.prod`). -/
def prodList (l : List ℚ) : ℚ := l.foldr (· * ·) 1

/-- Arithmetic mean (`np.mean`). -/
def meanList (l : List ℚ) : ℚ := sumList l / (l.length : ℚ)

/-- Minimum fold (`np.min`; the layers only reach it on nonempty input). -/
def minList : List ℚ → ℚ
  | [] => 0
  | x :: xs => xs.foldl min x

/-- Maximum fold (`np.max`). -/
def maxList : List ℚ → ℚ
  | [] => 0
  | x :: xs => xs.foldl max x

/-- numpy broadcast compatibility of reversed (right-aligned) shapes. -/
def broadcastCompatRev : List Nat → List Nat → Bool
  | [], _ => true
  | _ :: _, [] => false
  | s :: ss, d :: ds => (s == 1 || s == d) && broadcastCompatRev ss ds

/-- Can a tensor of shape `src` be broadcast to shape `dst`
(numpy assignment rule: right-align, each source dim is 1 or equal)? -/
def broadcastCompat (src dst : Shape) : Bool :=
  broadcastCompatRev src.reverse dst.reverse

/-- The source multi-index a destination multi-index reads from under
broadcasting: drop the extra leading coordinates, clamp size-1 dims to 0. -/
def broadcastIndex (src dst : Shape) (j : List Nat) : List Nat :=
  List.zipWith (fun s ji => if s = 1 then 0 else ji) src
    (j.drop (dst.length - src.length))

/-- numpy broadcast of a tensor to a destination shape; `none` when the
shapes are incompatible (numpy raises a ValueError). -/
def broadcastTo (src : Tensor) (dst : Shape) : Option Tensor :=
  if broadcastCompat src.shape dst then
    some { shape := dst
           data := (indices dst).map (fun j => src.get (broadcastIndex src.shape dst j)) }
  else none

/-- `backward(self, top, propagate_down, bottom)` shared by all five layers:
for the single input slot, when its propagate flag is set, assign
`bottom[0].diff[...] = top[0].diff[:]` (a numpy broadcast of the output
gradient into the input-shaped gradient buffer); otherwise leave the
input gradient buffer unchanged. -/
def layerBackward (propagate : Bool) (topDiff bottomDiff : Tensor) :
    Except LayerError Tensor :=
  if propagate then
    match broadcastTo topDiff bottomDiff.shape with
    | some g => .ok g
    | none => .error .broadcast
  else .ok bottomDiff

/-- `Mean.setup`. -/
def Mean.setup := layerSetup
/-- `Mean.reshape`. -/
def Mean.reshape := reshapeRun
/-- `Mean.forward`: `np.mean(bottom[0].data, axis, keepdims)`. -/
def Mean.forward (cfg : LayerConfig) (t : Tensor) : Tensor :=
  npReduce meanList t (axesOf cfg.axis) cfg.keepdims
/-- `Mean.backward`. -/
def Mean.backward := layerBackward

/-- `Prod.setup`. -/
def Prod.setup := layerSetup
/-- `Prod.reshape`. -/
def Prod.reshape := reshapeRun
/-- `Prod.forward`: `np.prod(bottom[0].data, axis, keepdims)`. -/
def Prod.forward (cfg : LayerConfig) (t : Tensor) : Tensor :=
  npReduce prodList t (axesOf cfg.axis) cfg.keepdims
/-- `Prod.backward`. -/
def Prod.backward := layerBackward

/-- `Sum.setup`. -/
def Sum.setup := layerSetup
/-- `Sum.reshape`. -/
def Sum.reshape := reshapeRun
/-- `Sum.forward`: `np.sum(bottom[0].data, axis, keepdims)`. -/
def Sum.forward (cfg : LayerConfig) (t : Tensor) : Tensor :=
  npReduce sumList t (axesOf cfg.axis) cfg.keepdims
/-- `Sum.backward`. -/
def Sum.backward := layerBackward

/-- `Min.setup`. -/
def Min.setup := layerSetup
/-- `Min.reshape`. -/
def Min.reshape := reshapeRun
/-- `Min.forward`: `np.min(bottom[0].data, axis, keepdims)`. -/
def Min.forward (cfg : LayerConfig) (t : Tensor) : Tensor :=
  npReduce minList t (axesOf cfg.axis) cfg.keepdims
/-- `Min.backward`. -/
def Min.backward := layerBackward

/-- `Max.setup`. -/
def Max.setup := layerSetup
/-- `Max.reshape`. -/
def Max.reshape := reshapeRun
/-- `Max.forward`: `np.max(bottom[0].data, axis, keepdims)`. -/
def Max.forward (cfg : LayerConfig) (t : Tensor) : Tensor :=
  npReduce maxList t (axesOf cfg.axis) cfg.keepdims
/-- `Max.backward`. -/
def Max.backward := layerBackward

/-- Validity of the axis parameter for an input shape: every named axis is a
dimension index of the shape (the external precondition the spec states for
the axis specification), and a multi-axis parameter, being a set of indices,
is duplicate-free. -/
def validAxes (axis : AxisSpec) (s : Shape) : Prop :=
  match axis with
  | .int k => k < s.length
  | .multi ks => ks.Nodup ∧ ∀ k ∈ ks, k < s.length

/-- Number of axes named by the axis parameter. -/
def axisCount : AxisSpec → Nat
  | .int _ => 1
  | .multi ks => ks.length

/-- Removing the leading (size-1) axis of a tensor: `np.squeeze(-, axis=0)`. -/
def squeezeAxis0 (t : Tensor) : Tensor := ⟨t.shape.tail, t.data⟩

theorem insertAsc_perm (x : Nat) (l : List Nat) : List.Perm (insertAsc x l) (x :: l) := by
  induction l with
  | nil => exact List.Perm.refl _
  | cons y ys ih =>
    unfold insertAsc
    by_cases h : x ≤ y
    · rw [if_pos h]
    · rw [if_neg h]
      exact (ih.cons y).trans (List.Perm.swap x y ys)

theorem sortAsc_perm (l : List Nat) : List.Perm (sortAsc l) l := by
  induction l with
  | nil => exact List.Perm.refl _
  | cons x xs ih => exact (insertAsc_perm x (sortAsc xs)).trans (ih.cons x)

theorem sortedDesc_perm (l : List Nat) : List.Perm (sortedDesc l) l :=
  (List.reverse_perm _).trans (sortAsc_perm l)

theorem insertAsc_sorted (x : Nat) {l : List Nat} (h : l.Pairwise (· ≤ ·)) :
    (insertAsc x l).Pairwise (· ≤ ·) := by
  induction l with
  | nil => simp [insertAsc]
  | cons y ys ih =>
    rw [List.pairwise_cons] at h
    unfold insertAsc
    by_cases hxy : x ≤ y
    · rw [if_pos hxy, List.pairwise_cons]
      refine ⟨?_, List.pairwise_cons.mpr h⟩
      intro b hb
      rcases List.mem_cons.mp hb with hb | hb
      · exact hb ▸ hxy
      · exact hxy.trans (h.1 b hb)
    · rw [if_neg hxy, List.pairwise_cons]
      refine ⟨?_, ih h.2⟩
      intro b hb
      rcases List.mem_cons.mp ((insertAsc_perm x ys).mem_iff.mp hb) with hb | hb
      · exact hb ▸ le_of_not_le hxy
      · exact h.1 b hb

theorem sortAsc_sorted (l : List Nat) : (sortAsc l).Pairwise (· ≤ ·) := by
  induction l with
  | nil => simp [sortAsc]
  | cons x xs ih => exact insertAsc_sorted x ih

theorem sortedDesc_strict {l : List Nat} (h : l.Nodup) :
    (sortedDesc l).Pairwise (· > ·) := by
  have hs : (sortedDesc l).Pairwise (fun a b => b ≤ a) := by
    rw [sortedDesc, List.pairwise_reverse]
    exact sortAsc_sorted l
  have hn : (sortedDesc l).Nodup := (sortedDesc_perm l).nodup_iff.mpr h
  exact (hs.and hn).imp (fun hab => lt_of_le_of_ne hab.1 (Ne.symm hab.2))

theorem foldl_step_true_length (l : List Nat) (s : Shape) :
    (l.foldl (reduceShapeStep true) s).length = s.length := by
  induction l generalizing s with
  | nil => rfl
  | cons k ks ih =>
    rw [List.foldl_cons, ih]
    simp [reduceShapeStep]

theorem foldl_step_false_length (l : List Nat) (s : Shape)
    (hsorted : l.Pairwise (· > ·)) (hbound : ∀ k ∈ l, k < s.length) :
    (l.foldl (reduceShapeStep false) s).length = s.length - l.length := by
  induction l generalizing s with
  | nil => rfl
  | cons k ks ih =>
    rw [List.pairwise_cons] at hsorted
    have hk : k < s.length := hbound k (List.mem_cons_self k ks)
    have hstep : (reduceShapeStep false s k).length = s.length - 1 := by
      simp [reduceShapeStep, List.length_eraseIdx_of_lt hk]
    rw [List.foldl_cons, ih (reduceShapeStep false s k) hsorted.2 ?bound, hstep]
    · simp [List.length_cons]
      omega
    case bound =>
      intro m hm
      have hmk : m < k := hsorted.1 m hm
      rw [hstep]
      omega

theorem keepShapeFrom_singleton_zero (ds : List Nat) : ∀ k : Nat,
    keepShapeFrom [0] (k + 1) ds = ds := by
  induction ds with
  | nil => intro k; rfl
  | cons d ds ih =>
    intro k
    simp [keepShapeFrom, ih (k + 1)]

theorem dropShapeFrom_singleton_zero (ds : List Nat) : ∀ k : Nat,
    dropShapeFrom [0] (k + 1) ds = ds := by
  induction ds with
  | nil => intro k; rfl
  | cons d ds ih =>
    intro k
    simp [dropShapeFrom, ih (k + 1)]

theorem keepShape_tail_eq_dropShape_zero (s : Shape) :
    (keepShape [0] s).tail = dropShape [0] s := by
  cases s with
  | nil => rfl
  | cons dim ds =>
    show keepShapeFrom [0] 1 ds = dropShapeFrom [0] 1 ds
    rw [keepShapeFrom_singleton_zero ds 0, dropShapeFrom_singleton_zero ds 0]

/-- Claim C1: forward of each of the five layers writes the conventional
reduction of the input along the configured axis with the configured
keep-dims behavior; on the input of shape [2,3] equal to [[1,2,3],[4,5,6]]
with axis=1 and keepdims=false, sum gives [6,15], mean gives [2,5], min
gives [1,4], max gives [3,6] and product gives [6,120]. -/
theorem c1_forward_reductions_concrete :
    Sum.forward ⟨.int 1, false⟩ ⟨[2, 3], [1, 2, 3, 4, 5, 6]⟩ = ⟨[2], [6, 15]⟩ ∧
    Mean.forward ⟨.int 1, false⟩ ⟨[2, 3], [1, 2, 3, 4, 5, 6]⟩ = ⟨[2], [2, 5]⟩ ∧
    Min.forward ⟨.int 1, false⟩ ⟨[2, 3], [1, 2, 3, 4, 5, 6]⟩ = ⟨[2], [1, 4]⟩ ∧
    Max.forward ⟨.int 1, false⟩ ⟨[2, 3], [1, 2, 3, 4, 5, 6]⟩ = ⟨[2], [3, 6]⟩ ∧
    Prod.forward ⟨.int 1, false⟩ ⟨[2, 3], [1, 2, 3, 4, 5, 6]⟩ = ⟨[2], [6, 120]⟩ := by
  refine ⟨?_, ?_, rfl, rfl, ?_⟩
  · have h : Sum.forward ⟨.int 1, false⟩ ⟨[2, 3], [1, 2, 3, 4, 5, 6]⟩
        = ⟨[2], [sumList [1, 2, 3], sumList [4, 5, 6]]⟩ := rfl
    rw [h]
    norm_num [sumList, Tensor.mk.injEq]
  · have h : Mean.forward ⟨.int 1, false⟩ ⟨[2, 3], [1, 2, 3, 4, 5, 6]⟩
        = ⟨[2], [meanList [1, 2, 3], meanList [4, 5, 6]]⟩ := rfl
    rw [h]
    norm_num [meanList, sumList, Tensor.mk.injEq]
  · have h : Prod.forward ⟨.int 1, false⟩ ⟨[2, 3], [1, 2, 3, 4, 5, 6]⟩
        = ⟨[2], [prodList [1, 2, 3], prodList [4, 5, 6]]⟩ := rfl
    rw [h]
    norm_num [prodList, Tensor.mk.injEq]

/-- Claim C3 (the code contradicts it): on the concrete scenario of the
claim — input of shape [2,3], axis=1, keepdims=false, so an output gradient
of shape [2] — the backward assignment
`bottom[0].diff[...] = top[0].diff[:]` is a numpy broadcast of shape [2]
into shape [2,3], which is not right-align compatible, so backward raises
instead of writing [[1,1,1],[1,1,1]]; with the keep-dims output-gradient
shape [2,1] the same assignment does succeed and writes the broadcast
copy. -/
theorem c3_sum_backward_broadcast_raises :
    Sum.backward true ⟨[2], [1, 1]⟩ ⟨[2, 3], [0, 0, 0, 0, 0, 0]⟩
      = .error .broadcast ∧
    Sum.backward true ⟨[2, 1], [1, 1]⟩ ⟨[2, 3], [0, 0, 0, 0, 0, 0]⟩
      = .ok ⟨[2, 3], [1, 1, 1, 1, 1, 1]⟩ :=
  ⟨rfl, rfl⟩

/-- Claim C4 (the code contradicts it): the backward of the non-sum layers
is the same uniform broadcast copy as sum's, not the per-operator gradient:
on input [[1,2,3],[4,5,6]], axis=1, keepdims=true, output gradient [[1],[1]],
Mean, Prod, Min and Max all write [[1,1,1],[1,1,1]], while the intended mean
gradient of the claim is [[1/3,1/3,1/3],[1/3,1/3,1/3]]. -/
theorem c4_backward_uniform_copy :
    Mean.backward true ⟨[2, 1], [1, 1]⟩ ⟨[2, 3], [0, 0, 0, 0, 0, 0]⟩
      = .ok ⟨[2, 3], [1, 1, 1, 1, 1, 1]⟩ ∧
    Prod.backward true ⟨[2, 1], [1, 1]⟩ ⟨[2, 3], [0, 0, 0, 0, 0, 0]⟩
      = .ok ⟨[2, 3], [1, 1, 1, 1, 1, 1]⟩ ∧
    Min.backward true ⟨[2, 1], [1, 1]⟩ ⟨[2, 3], [0, 0, 0, 0, 0, 0]⟩
      = .ok ⟨[2, 3], [1, 1, 1, 1, 1, 1]⟩ ∧
    Max.backward true ⟨[2, 1], [1, 1]⟩ ⟨[2, 3], [0, 0, 0, 0, 0, 0]⟩
      = .ok ⟨[2, 3], [1, 1, 1, 1, 1, 1]⟩ ∧
    Tensor.mk [2, 3] [1, 1, 1, 1, 1, 1]
      ≠ Tensor.mk [2, 3] [1/3, 1/3, 1/3, 1/3, 1/3, 1/3] := by
  refine ⟨rfl, rfl, rfl, rfl, ?_⟩
  norm_num [Tensor.mk.injEq]

/-- Claim C5: with a multi-index axis collection and keepdims=false, the
dimensions are deleted in descending numeric order, so axis={0,2} on input
shape [2,3,4] yields output shape [3] (whichever order the collection lists
the axes in). -/
theorem c5_multi_axis_descending_deletion :
    reshapeShape (.multi [0, 2]) false [2, 3, 4] = [3] ∧
    reshapeShape (.multi [2, 0]) false [2, 3, 4] = [3] :=
  ⟨rfl, rfl⟩

/-- Claim C6: for every layer, reshape on an input tensor with zero elements
raises the empty-input error, before resizing the output (no output shape is
produced). -/
theorem c6_empty_input_reshape (axis : AxisSpec) (keepdims : Bool)
    (t : Tensor) (h : t.count = 0) :
    Mean.reshape axis keepdims t = .error .emptyInput ∧
    Prod.reshape axis keepdims t = .error .emptyInput ∧
    Sum.reshape axis keepdims t = .error .emptyInput ∧
    Min.reshape axis keepdims t = .error .emptyInput ∧
    Max.reshape axis keepdims t = .error .emptyInput := by
  have key : reshapeRun axis keepdims t = .error .emptyInput := by
    unfold reshapeRun
    rw [if_pos h]
  exact ⟨key, key, key, key, key⟩

/-- Witness for claim C6 at the concrete empty tensor of shape [0]. -/
theorem c6_empty_input_reshape_witness :
    (⟨[0], []⟩ : Tensor).count = 0 ∧
    (Mean.reshape (.int 0) true ⟨[0], []⟩ = .error .emptyInput ∧
     Prod.reshape (.int 0) true ⟨[0], []⟩ = .error .emptyInput ∧
     Sum.reshape (.int 0) true ⟨[0], []⟩ = .error .emptyInput ∧
     Min.reshape (.int 0) true ⟨[0], []⟩ = .error .emptyInput ∧
     Max.reshape (.int 0) true ⟨[0], []⟩ = .error .emptyInput) :=
  ⟨rfl, c6_empty_input_reshape (.int 0) true ⟨[0], []⟩ rfl⟩

/-- Claim C7: setup of every layer raises the configuration error exactly
when the number of bottom blobs or the number of top blobs differs from 1,
and with exactly one of each it succeeds, its only effect being to store the
axis and keepdims parameters. -/
theorem c7_setup_arity (nBottom nTop : Nat) (p : LayerConfig) :
    ((Mean.setup nBottom nTop p = .error .configuration) ↔ nBottom ≠ 1 ∨ nTop ≠ 1) ∧
    Mean.setup 1 1 p = .ok p ∧
    ((Prod.setup nBottom nTop p = .error .configuration) ↔ nBottom ≠ 1 ∨ nTop ≠ 1) ∧
    Prod.setup 1 1 p = .ok p ∧
    ((Sum.setup nBottom nTop p = .error .configuration) ↔ nBottom ≠ 1 ∨ nTop ≠ 1) ∧
    Sum.setup 1 1 p = .ok p ∧
    ((Min.setup nBottom nTop p = .error .configuration) ↔ nBottom ≠ 1 ∨ nTop ≠ 1) ∧
    Min.setup 1 1 p = .ok p ∧
    ((Max.setup nBottom nTop p = .error .configuration) ↔ nBottom ≠ 1 ∨ nTop ≠ 1) ∧
    Max.setup 1 1 p = .ok p := by
  have key : (layerSetup nBottom nTop p = .error .configuration)
      ↔ nBottom ≠ 1 ∨ nTop ≠ 1 := by
    unfold layerSetup
    by_cases h1 : nBottom = 1 <;> by_cases h2 : nTop = 1 <;> simp [h1, h2]
  have keyOk : layerSetup 1 1 p = .ok p := rfl
  exact ⟨key, keyOk, key, keyOk, key, keyOk, key, keyOk, key, keyOk⟩

/-- Claim C9: for every layer, when the propagate flag of the single input
slot is not set, backward leaves the input gradient buffer unchanged. -/
theorem c9_no_propagate_no_write (topDiff bottomDiff : Tensor) :
    Mean.backward false topDiff bottomDiff = .ok bottomDiff ∧
    Prod.backward false topDiff bottomDiff = .ok bottomDiff ∧
    Sum.backward false topDiff bottomDiff = .ok bottomDiff ∧
    Min.backward false topDiff bottomDiff = .ok bottomDiff ∧
    Max.backward false topDiff bottomDiff = .ok bottomDiff :=
  ⟨rfl, rfl, rfl, rfl, rfl⟩

/-- Claim C10: configuring a layer with the plain integer axis k is
equivalent to configuring it with the one-element collection [k]: reshape
computes the same output shape and every layer's forward computes the same
output tensor. -/
theorem c10_int_axis_equiv_singleton (t : Tensor) (k : Nat) (keepdims : Bool)
    (hne : t.count ≠ 0) (hk : k < t.shape.length) :
    reshapeShape (.int k) keepdims t.shape
      = reshapeShape (.multi [k]) keepdims t.shape ∧
    Mean.forward ⟨.int k, keepdims⟩ t = Mean.forward ⟨.multi [k], keepdims⟩ t ∧
    Prod.forward ⟨.int k, keepdims⟩ t = Prod.forward ⟨.multi [k], keepdims⟩ t ∧
    Sum.forward ⟨.int k, keepdims⟩ t = Sum.forward ⟨.multi [k], keepdims⟩ t ∧
    Min.forward ⟨.int k, keepdims⟩ t = Min.forward ⟨.multi [k], keepdims⟩ t ∧
    Max.forward ⟨.int k, keepdims⟩ t = Max.forward ⟨.multi [k], keepdims⟩ t :=
  ⟨rfl, rfl, rfl, rfl, rfl, rfl⟩

/-- Witness for claim C10 on the shape-[2,3] input with k = 1. -/
theorem c10_int_axis_equiv_singleton_witness :
    (⟨[2, 3], [1, 2, 3, 4, 5, 6]⟩ : Tensor).count ≠ 0 ∧
    1 < (⟨[2, 3], [1, 2, 3, 4, 5, 6]⟩ : Tensor).shape.length ∧
    (reshapeShape (.int 1) false (⟨[2, 3], [1, 2, 3, 4, 5, 6]⟩ : Tensor).shape
      = reshapeShape (.multi [1]) false (⟨[2, 3], [1, 2, 3, 4, 5, 6]⟩ : Tensor).shape ∧
     Mean.forward ⟨.int 1, false⟩ ⟨[2, 3], [1, 2, 3, 4, 5, 6]⟩
      = Mean.forward ⟨.multi [1], false⟩ ⟨[2, 3], [1, 2, 3, 4, 5, 6]⟩ ∧
     Prod.forward ⟨.int 1, false⟩ ⟨[2, 3], [1, 2, 3, 4, 5, 6]⟩
      = Prod.forward ⟨.multi [1], false⟩ ⟨[2, 3], [1, 2, 3, 4, 5, 6]⟩ ∧
     Sum.forward ⟨.int 1, false⟩ ⟨[2, 3], [1, 2, 3, 4, 5, 6]⟩
      = Sum.forward ⟨.multi [1], false⟩ ⟨[2, 3], [1, 2, 3, 4, 5, 6]⟩ ∧
     Min.forward ⟨.int 1, false⟩ ⟨[2, 3], [1, 2, 3, 4, 5, 6]⟩
      = Min.forward ⟨.multi [1], false⟩ ⟨[2, 3], [1, 2, 3, 4, 5, 6]⟩ ∧
     Max.forward ⟨.int 1, false⟩ ⟨[2, 3], [1, 2, 3, 4, 5, 6]⟩
      = Max.forward ⟨.multi [1], false⟩ ⟨[2, 3], [1, 2, 3, 4, 5, 6]⟩) :=
  ⟨by decide, by decide,
   c10_int_axis_equiv_singleton ⟨[2, 3], [1, 2, 3, 4, 5, 6]⟩ 1 false
     (by decide) (by decide)⟩

/-- Claim C2: for every input tensor with nonzero element count and every
valid axis specification, reshape succeeds and computes an output shape
whose rank equals the input rank with keepdims=true (each reduced axis
becomes size 1, via set), and the input rank minus the number of axes in
the (duplicate-free) specification with keepdims=false (each reduced axis
is removed). -/
theorem c2_reshape_rank (t : Tensor) (axis : AxisSpec)
    (hne : t.count ≠ 0) (hv : validAxes axis t.shape) :
    reshapeRun axis true t = .ok (reshapeShape axis true t.shape) ∧
    (reshapeShape axis true t.shape).length = t.shape.length ∧
    reshapeRun axis false t = .ok (reshapeShape axis false t.shape) ∧
    (reshapeShape axis false t.shape).length = t.shape.length - axisCount axis := by
  have hrun : ∀ kd : Bool,
      reshapeRun axis kd t = .ok (reshapeShape axis kd t.shape) := by
    intro kd
    unfold reshapeRun
    rw [if_neg hne]
  refine ⟨hrun true, ?_, hrun false, ?_⟩
  · cases axis with
    | int k =>
      simp [reshapeShape, reduceShapeStep]
    | multi ks =>
      exact foldl_step_true_length (sortedDesc ks) t.shape
  · cases axis with
    | int k =>
      have hk : k < t.shape.length := hv
      simp [reshapeShape, reduceShapeStep, axisCount,
        List.length_eraseIdx_of_lt hk]
    | multi ks =>
      obtain ⟨hnd, hb⟩ := hv
      have hb' : ∀ k ∈ sortedDesc ks, k < t.shape.length := fun k hk =>
        hb k ((sortedDesc_perm ks).mem_iff.mp hk)
      have hlen : (sortedDesc ks).length = ks.length :=
        (sortedDesc_perm ks).length_eq
      have := foldl_step_false_length (sortedDesc ks) t.shape
        (sortedDesc_strict hnd) hb'
      rw [reshapeShape, this, hlen]
      rfl

/-- Witness for claim C2 on shape [2,3,4] with axes {0,2}. -/
theorem c2_reshape_rank_witness :
    (⟨[2, 3, 4], List.replicate 24 0⟩ : Tensor).count ≠ 0 ∧
    validAxes (.multi [0, 2]) (⟨[2, 3, 4], List.replicate 24 0⟩ : Tensor).shape ∧
    (reshapeRun (.multi [0, 2]) true ⟨[2, 3, 4], List.replicate 24 0⟩
       = .ok (reshapeShape (.multi [0, 2]) true [2, 3, 4]) ∧
     (reshapeShape (.multi [0, 2]) true [2, 3, 4]).length
       = ([2, 3, 4] : Shape).length ∧
     reshapeRun (.multi [0, 2]) false ⟨[2, 3, 4], List.replicate 24 0⟩
       = .ok (reshapeShape (.multi [0, 2]) false [2, 3, 4]) ∧
     (reshapeShape (.multi [0, 2]) false [2, 3, 4]).length
       = ([2, 3, 4] : Shape).length - axisCount (.multi [0, 2])) :=
  ⟨by decide, ⟨by decide, by decide⟩,
   c2_reshape_rank ⟨[2, 3, 4], List.replicate 24 0⟩ (.multi [0, 2])
     (by decide) ⟨by decide, by decide⟩⟩

/-- Claim C8: for every non-empty input tensor, running sum's forward with
axis={0} and keepdims=true and then squeezing axis 0 of the result equals
running sum's forward with axis={0} and keepdims=false. -/
theorem c8_sum_roundtrip_keepdims (t : Tensor) (hne : t.count ≠ 0) :
    squeezeAxis0 (Sum.forward ⟨.multi [0], true⟩ t)
      = Sum.forward ⟨.multi [0], false⟩ t := by
  show Tensor.mk (keepShape [0] t.shape).tail
      ((indices (keepShape [0] t.shape)).map (fun o => sumList (fiber t [0] o)))
    = Tensor.mk (dropShape [0] t.shape)
      ((indices (keepShape [0] t.shape)).map (fun o => sumList (fiber t [0] o)))
  rw [keepShape_tail_eq_dropShape_zero t.shape]

/-- Witness for claim C8 on the shape-[2,3] input [[1,2,3],[4,5,6]]. -/
theorem c8_sum_roundtrip_keepdims_witness :
    (⟨[2, 3], [1, 2, 3, 4, 5, 6]⟩ : Tensor).count ≠ 0 ∧
    squeezeAxis0 (Sum.forward ⟨.multi [0], true⟩ ⟨[2, 3], [1, 2, 3, 4, 5, 6]⟩)
      = Sum.forward ⟨.multi [0], false⟩ ⟨[2, 3], [1, 2, 3, 4, 5, 6]⟩ :=
  ⟨by decide, c8_sum_roundtrip_keepdims ⟨[2, 3], [1, 2, 3, 4, 5, 6]⟩ (by decide)⟩
